import Mathlib

/-!
# Verification of the chat transport core (server-client-chatapp)

A shallow embedding of the repository's message protocol and reliable
transport layer, with theorems checking the natural-language specification
against the code.

Modelling conventions, used throughout:

* JSON values are represented by the inductive type `Json` below.  The
  Python functions `json.loads` / `json.dumps` are abstracted at the
  boundary: a wire input is an `Option Json` (`none` models a byte string
  that is not valid JSON, `some j` models a byte string parsing to `j`).
  JSON numbers are modelled as integers (`Int`): the code only carries,
  compares and subtracts timestamps, and the claims under study involve no
  floating-point rounding.
* A message `content` field is a `Json` value.  A Python content string
  that is itself a serialized JSON document (the reliable envelope
  `{"sequence": .., "data": ..}` or an ack body `{"sequence": ..}`) is
  represented by the corresponding `Json.obj` / `Json.arr` value, and a
  content string that does not parse as JSON by `Json.str`.  The
  `json.dumps` applied when building such nested content, and the
  `json.loads` applied when inspecting it, thereby become the identity /
  a case match.  (A doubly-encoded scalar string is out of modelled scope;
  no claim depends on one.)
* Clock reads (`time.time()`) become an explicit `now : Int` argument.
* Python exceptions that escape a function are modelled with
  `Except String`, the string naming the exception class.
-/

inductive Json where
  | null : Json
  | bool (b : Bool) : Json
  | num (n : Int) : Json
  | str (s : String) : Json
  | arr (elems : List Json) : Json
  | obj (fields : List (String × Json)) : Json

/-- Field lookup on the field list of a JSON object, as Python `dict.get`
(JSON objects produced by `json.loads` have unique keys). -/
def lookupField : List (String × Json) → String → Option Json
  | [], _ => none
  | (k, v) :: rest, key => if k = key then some v else lookupField rest key

/-- `Json.lookup j key` is Python `j.get(key)` for an object `j`, `none`
otherwise (the non-object case is never reached where we use it). -/
def Json.lookup : Json → String → Option Json
  | Json.obj fields, key => lookupField fields key
  | _, _ => none

/-- The message-kind enumeration `MessageType`, identical in
`server/core/message_protocol.py` and `client/core/message_protocol.py`. -/
inductive MessageType where
  | CONNECT
  | DISCONNECT
  | MESSAGE
  | STATUS
  | ERROR
  | TEST
  | ACK
deriving DecidableEq, Repr

/-- The `.value` string of each `MessageType` member. -/
def MessageType.toWire : MessageType → String
  | .CONNECT => "connect"
  | .DISCONNECT => "disconnect"
  | .MESSAGE => "message"
  | .STATUS => "status"
  | .ERROR => "error"
  | .TEST => "test"
  | .ACK => "ack"

/-- The `message_type_map` dictionary of the server's `decode_message`,
which is also exactly the value-to-member mapping that the client's
`MessageType(...)` enum constructor performs (`ValueError`, i.e. `none`,
on an unknown value). -/
def messageTypeOfString : String → Option MessageType
  | "connect" => some .CONNECT
  | "message" => some .MESSAGE
  | "disconnect" => some .DISCONNECT
  | "test" => some .TEST
  | "status" => some .STATUS
  | "error" => some .ERROR
  | "ack" => some .ACK
  | _ => none

/-! ## Server wire codec (`server/core/message_protocol.py`) -/

/-- `MessageProtocol.encode_message(message_type, content, username)`.
The Python function samples `time.time()` internally for the `timestamp`
field; that clock read is the explicit argument `now`.  The `content`
parameter is a string in Python; under the conventions above it is a
`Json` value here (plain text call sites pass `Json.str ..`). -/
def encode_message (t : MessageType) (content : Json) (username : String)
    (now : Int) : Json :=
  Json.obj [("type", Json.str t.toWire), ("content", content),
    ("username", Json.str username), ("timestamp", Json.num now),
    ("version", Json.str "1.0")]

/-- `MessageProtocol.create_ack_message(sequence, test_id)`: the ack
content is `{"sequence": n}`, with a `test_id` field appended when
`test_id` is truthy (a non-empty string). -/
def create_ack_message (sequence : Int) (test_id : Option String)
    (now : Int) : Json :=
  let content :=
    match test_id with
    | some tid =>
        if tid = "" then Json.obj [("sequence", Json.num sequence)]
        else Json.obj [("sequence", Json.num sequence),
          ("test_id", Json.str tid)]
    | none => Json.obj [("sequence", Json.num sequence)]
  encode_message .ACK content "server" now

/-- `MessageProtocol.create_reliable_message(sequence, content, username)`
(server side): wraps the content in the `{"sequence", "data"}` envelope. -/
def create_reliable_message (sequence : Int) (content : Json)
    (username : String) (now : Int) : Json :=
  encode_message .MESSAGE
    (Json.obj [("sequence", Json.num sequence), ("data", content)])
    username now

/-- `MessageProtocol.decode_message(message_str)`, returning
`(message_type, content, sender)`.  `none` input models a string
`json.loads` rejects; a parsed non-object also lands in the generic
`except Exception` branch (Python raises `AttributeError` on `data.get`,
and the function catches every exception), so both return
`(None, "", "")`.  An unknown-string, missing (defaulted to `''`), or
hashable non-string `type` value falls back to `MessageType.STATUS` via
`message_type_map.get(..., MessageType.STATUS)` (`None`, booleans and
numbers are hashable keys simply absent from the map); an *unhashable*
`type` value — a list or a dict — makes that `dict.get` raise
`TypeError`, which the blanket handler turns into the same
`(None, "", "")` failure result. -/
def decode_message : Option Json → Option MessageType × Json × Json
  | none => (none, Json.str "", Json.str "")
  | some (Json.obj fields) =>
    let typeVal := (lookupField fields "type").getD (Json.str "")
    let content := (lookupField fields "content").getD (Json.str "")
    let sender := (lookupField fields "username").getD (Json.str "")
    match typeVal with
    | Json.str s => (some ((messageTypeOfString s).getD .STATUS), content, sender)
    | Json.null => (some .STATUS, content, sender)
    | Json.bool _ => (some .STATUS, content, sender)
    | Json.num _ => (some .STATUS, content, sender)
    | Json.arr _ => (none, Json.str "", Json.str "")
    | Json.obj _ => (none, Json.str "", Json.str "")
  | some _ => (none, Json.str "", Json.str "")

/-- `MessageProtocol.extract_reliable_content(content)`, returning
`(sequence, actual_content, test_id)`; falls back to
`(None, content, None)` when the content is not an envelope object with
both a `"sequence"` and a `"data"` field. -/
def extract_reliable_content (content : Json) :
    Option Json × Json × Option Json :=
  match content with
  | Json.obj fields =>
    if (lookupField fields "sequence").isSome ∧
        (lookupField fields "data").isSome then
      ((lookupField fields "sequence"), (lookupField fields "data").getD content,
        (lookupField fields "test_id"))
    else (none, content, none)
  | _ => (none, content, none)

/-! ## Client wire codec (`client/core/message_protocol.py`) -/

/-- The client's `ChatMessage` dataclass.  Fields other than the enum
`type` hold whatever JSON value the wire carried (Python does not enforce
the annotations), so they are `Json`; `username = None` is `Json.null`. -/
structure ChatMessage where
  type : MessageType
  content : Json
  timestamp : Json
  username : Json
  version : Json

/-- `ChatMessage.to_json`, with the field order of the source dict. -/
def ChatMessage.to_json (m : ChatMessage) : Json :=
  Json.obj [("type", Json.str m.type.toWire), ("content", m.content),
    ("timestamp", m.timestamp), ("username", m.username),
    ("version", m.version)]

/-- The `ChatMessage` built by `from_json`'s exception handler:
`ERROR / "Invalid message format"` with a receiver-assigned timestamp and
dataclass defaults for the remaining fields. -/
def ChatMessage.invalidFormat (now : Int) : ChatMessage :=
  ⟨.ERROR, Json.str "Invalid message format", Json.num now, Json.null,
    Json.str "1.0"⟩

/-- Python `"s" in elems` for a list `elems` of JSON values: equality
with a string holds exactly for an equal string element. -/
def jsonStrMem (s : String) (elems : List Json) : Bool :=
  elems.any fun e =>
    match e with
    | Json.str t => t == s
    | _ => false

/-- The envelope-unwrapping step of `from_json` for a `MESSAGE`-kind
content: `json.loads(content)` then, if both `"sequence"` and `"data"`
are present, replace content with the `"data"` value.  A content object
missing either key, or content whose `json.loads` raises
`JSONDecodeError` (plain string) or `TypeError` (number, bool, null,
nested non-string), falls through unchanged.  A content *array* whose
elements include the strings `"sequence"` and `"data"` reaches
`msg_data.get` and raises `AttributeError`, which neither `except`
clause catches. -/
def unwrapReliableContent (content : Json) : Except String Json :=
  match content with
  | Json.obj fields =>
    if (lookupField fields "sequence").isSome ∧
        (lookupField fields "data").isSome then
      Except.ok ((lookupField fields "data").getD (Json.str ""))
    else Except.ok content
  | Json.arr elems =>
    if jsonStrMem "sequence" elems ∧ jsonStrMem "data" elems then
      Except.error "AttributeError"
    else Except.ok content
  | _ => Except.ok content

/-- `ChatMessage.from_json(json_str)`.  `none` models invalid JSON
(`JSONDecodeError`, caught: error message).  A parsed non-object raises
`AttributeError` at `data.get("type", "message")`, which the handler
(`JSONDecodeError, ValueError, KeyError`) does not catch: the exception
escapes (`Except.error`).  An unknown `type` value raises `ValueError`
inside the `try` (caught: error message).  `now` is the receiver clock
used for default timestamps. -/
def ChatMessage.from_json (input : Option Json) (now : Int) :
    Except String ChatMessage :=
  match input with
  | none => Except.ok (ChatMessage.invalidFormat now)
  | some (Json.obj fields) =>
    let typeVal := (lookupField fields "type").getD (Json.str "message")
    match (match typeVal with
           | Json.str s => messageTypeOfString s
           | _ => none) with
    | none => Except.ok (ChatMessage.invalidFormat now)
    | some mt =>
      let content0 := (lookupField fields "content").getD (Json.str "")
      let contentStep :=
        if mt = .MESSAGE then unwrapReliableContent content0
        else Except.ok content0
      match contentStep with
      | Except.error e => Except.error e
      | Except.ok content =>
        Except.ok
          { type := mt
            content := content
            timestamp := (lookupField fields "timestamp").getD (Json.num now)
            username := (lookupField fields "username").getD Json.null
            version := (lookupField fields "version").getD (Json.str "1.0") }
  | some _ => Except.error "AttributeError"

/-- `ChatMessage.create_reliable_message` (client side): unlike the
server's, the envelope always carries a `test_id` field
(`Json.null` when `test_id is None`). -/
def ChatMessage.create_reliable_message (sequence : Int) (content : Json)
    (username : Json) (test_id : Json) (now : Int) : ChatMessage :=
  { type := .MESSAGE
    content := Json.obj [("sequence", Json.num sequence),
      ("data", content), ("test_id", test_id)]
    timestamp := Json.num now
    username := username
    version := Json.str "1.0" }

/-! ## Stream framer
(`server/core/client_handler.py`, `_handle_client` read loop;
`client/core/tcp_client.py`, `receive_test_message` has the same
buffer logic.)

Bytes are natural numbers; a frame is a 4-byte big-endian length header
followed by the body.  The inner `while len(buffer) >= 4` loop of
`_handle_client` becomes `processBuffer`: it returns the list of complete
message bodies extracted (in order, each handed to `_process_message`)
and the leftover buffer.  On a header claiming more than
`1024 * 1024` bytes the source does `buffer = b""` followed by `break`:
the buffer is discarded and the read loop continues on the same
connection. -/

/-- Python `int.from_bytes(buffer[:4], 'big')`. -/
def readLen (b : List Nat) : Nat :=
  16777216 * b.getD 0 0 + 65536 * b.getD 1 0 + 256 * b.getD 2 0 + b.getD 3 0

/-- Python `length.to_bytes(4, 'big')`. -/
def lenBytes (n : Nat) : List Nat :=
  [n / 16777216 % 256, n / 65536 % 256, n / 256 % 256, n % 256]

/-- One pass of the inner frame-extraction loop over the buffer:
extract every complete frame, stopping on an incomplete frame (buffer
kept) or an oversized length header (buffer discarded, loop broken). -/
def processBuffer (b : List Nat) : List (List Nat) × List Nat :=
  if b.length < 4 then ([], b)
  else if 1048576 < readLen b then ([], [])
  else if 4 + readLen b ≤ b.length then
    let body := (b.drop 4).take (readLen b)
    let r := processBuffer (b.drop (4 + readLen b))
    (body :: r.1, r.2)
  else ([], b)
termination_by b.length
decreasing_by
  simp only [List.length_drop]
  omega

/-- One `recv` delivering chunk `c`: append to the buffer, run the
extraction loop, accumulate the extracted bodies. -/
def feedChunk (st : List (List Nat) × List Nat) (c : List Nat) :
    List (List Nat) × List Nat :=
  let r := processBuffer (st.2 ++ c)
  (st.1 ++ r.1, r.2)

/-- Feed a sequence of read chunks through the framer, starting from an
empty buffer. -/
def feedChunks (chunks : List (List Nat)) : List (List Nat) × List Nat :=
  chunks.foldl feedChunk ([], [])

/-- The sender's framing (`sendall(len(data).to_bytes(4, 'big'))` then
`sendall(data)`). -/
def encodeFrame (body : List Nat) : List Nat :=
  lenBytes body.length ++ body

/-- A byte list split into 1-byte chunks. -/
def singletons (l : List Nat) : List (List Nat) :=
  l.map fun b => [b]

/-! ## Reliable datagram client (`client/core/udp_client.py`) -/

/-- Python truthiness of a JSON value (`if content:`). -/
def jsonTruthy : Json → Bool
  | Json.null => false
  | Json.bool b => b
  | Json.num n => n != 0
  | Json.str s => s ≠ ""
  | Json.arr l => !l.isEmpty
  | Json.obj l => !l.isEmpty

/-- One entry of `self.pending_acknowledgements[sequence]`:
`{"message": message_data, "sent_time": .., "retries": .., "content": ..}`.
`message` is the recorded wire payload (the `to_json` value whose encoded
bytes were sent). -/
structure PendingEntry where
  message : Json
  sent_time : Int
  retries : Nat
  content : Json

/-- The `UDPClient` state touched by the reliability layer.  The
`pending_acknowledgements` dict is an insertion-ordered association list
with unique integer keys, as a Python dict keyed by sequence number. -/
structure UDPClientState where
  pending_acknowledgements : List (Int × PendingEntry)
  should_retransmit : Bool
  sequence_number : Int
  recovery_mode : Bool

/-- `UDPClient.send_message`: assign the next sequence number, build the
reliable envelope message, record a pending entry, mark the retry loop
running.  Returns the new state and the wire payload sent. -/
def UDPClientState.send_message (st : UDPClientState) (text : Json)
    (username : Json) (now : Int) : UDPClientState × Json :=
  let sequence := st.sequence_number
  let m := ChatMessage.create_reliable_message sequence text username
    Json.null now
  let entry : PendingEntry :=
    { message := m.to_json, sent_time := now, retries := 0, content := text }
  ({ st with
      sequence_number := sequence + 1
      pending_acknowledgements :=
        st.pending_acknowledgements ++ [(sequence, entry)]
      should_retransmit := true },
    m.to_json)

/-- The result of one sweep of `_retransmit_loop`'s body: the updated
pending dict, the payloads passed to `sendto`, and the updated
`recovery_mode` flag. -/
structure SweepResult where
  pending : List (Int × PendingEntry)
  resent : List Json
  recovery : Bool

/-- One iteration of `_retransmit_loop` (between two `sleep(0.5)` calls),
at clock `now`.  Phase 1 walks the pending dict: every entry with
`now - sent_time > retransmit_timeout` (2 seconds) gets `retries + 1` and
`sent_time = now` and its sequence collected; phase 2 re-sends the
recorded `message` bytes of each collected sequence (all still present —
nothing is ever removed here); finally `recovery_mode` is entered if any
retransmission happened and cleared only when the pending dict is empty. -/
def retransmitSweep (now : Int) (pending : List (Int × PendingEntry))
    (recovery : Bool) : SweepResult :=
  let timedOut : Int × PendingEntry → Bool := fun p => 2 < now - p.2.sent_time
  { pending := pending.map fun p =>
      if timedOut p then
        (p.1, { p.2 with retries := p.2.retries + 1, sent_time := now })
      else p
    resent := (pending.filter timedOut).map fun p => p.2.message
    recovery :=
      if pending.isEmpty then false else (recovery || pending.any timedOut) }

/-- `UDPClient._handle_ack_message`.  The ack content is `json.loads`-ed;
a missing or non-integer `sequence` never matches a pending key (Python:
`sequence is None` or a failed dict-membership test), a non-object
content means `json.loads` raised (plain string: `JSONDecodeError`,
logged; other shapes raise and are swallowed by `receive_message`'s
blanket handler) — in every such case the state is unchanged.  On a match
the entry is deleted, and `should_retransmit` is cleared when the dict
became empty. -/
def handle_ack_message (st : UDPClientState) (content : Json) :
    UDPClientState :=
  match content with
  | Json.obj fields =>
    match lookupField fields "sequence" with
    | some (Json.num sequence) =>
      if st.pending_acknowledgements.any (fun p => p.1 == sequence) then
        let remaining :=
          st.pending_acknowledgements.filter fun p => !(p.1 == sequence)
        { st with
            pending_acknowledgements := remaining
            should_retransmit :=
              if remaining.isEmpty then false else st.should_retransmit }
      else st
    | _ => st
  | _ => st

/-- `UDPClient.receive_message`, after the socket read: decode the
datagram with `ChatMessage.from_json`; an `ACK` is handed to
`_handle_ack_message` and `None` is returned (never the ack itself); any
exception is swallowed by the blanket handler (`None`, state unchanged);
every other message is returned to the caller. -/
def udp_receive_message (st : UDPClientState) (wire : Option Json)
    (now : Int) : UDPClientState × Option ChatMessage :=
  match ChatMessage.from_json wire now with
  | Except.error _ => (st, none)
  | Except.ok m =>
    if m.type = .ACK then (handle_ack_message st m.content, none)
    else (st, some m)

/-! ## TCP session handler (`server/core/client_handler.py`) -/

/-- The observable effects of `ClientHandler._process_message` on one
decoded frame: messages written back to the socket (each through
`_send_raw_message`, i.e. `encode_message` at the send-time clock),
contents forwarded to `message_callback`, `(sender, content)` pairs
forwarded to `notify_callback`, the possibly updated username, and the
possibly cleared `is_running` flag. -/
structure HandlerEffects where
  sent : List Json
  delivered : List Json
  status : List (Json × Json)
  username : Json
  running : Bool

/-- `ClientHandler._process_message(message_str)` for a handler whose
current username is `username`, at clock `now`.  `MESSAGE` content goes
to the message callback as-is; `TEST` echoes a fresh
`encode_message(TEST, "", "server")` (note: built at the *server's*
clock `now`, with empty content); `STATUS` notifies; `CONNECT` replaces
the username when the content is truthy; `DISCONNECT` clears
`is_running`; a failed decode (`message_type is None`) or an
`ERROR`/`ACK` kind does nothing. -/
def process_message (username : Json) (wire : Option Json) (now : Int) :
    HandlerEffects :=
  let dec := decode_message wire
  let base : HandlerEffects :=
    { sent := [], delivered := [], status := [], username := username,
      running := true }
  match dec.1 with
  | none => base
  | some mt =>
    match mt with
    | .MESSAGE => { base with delivered := [dec.2.1] }
    | .TEST =>
        { base with sent := [encode_message .TEST (Json.str "") "server" now] }
    | .STATUS => { base with status := [(dec.2.2, dec.2.1)] }
    | .CONNECT =>
        { base with
            username := if jsonTruthy dec.2.1 then dec.2.1 else username }
    | .DISCONNECT => { base with running := false }
    | .ERROR => base
    | .ACK => base

/-! ## UDP server (`server/core/udp_server.py`) -/

/-- The dispatch performed by `UDPServer._handle_received_data` on one
datagram: `parse_message` is plain `json.loads` (`None` on failure, and
a parsed non-dict would fail the subsequent `.get` calls inside the
handler's blanket `except`), then the string `type` field selects the
handler.  The `sender` is read from the `"sender"` key with default
`"unknown"` (the client actually sends `"username"`). -/
inductive UdpAction where
  | ignored
  | connect (content : Json)
  | disconnect
  | chat (content : Json) (sender : Json)
  | statusNote (content : Json)
  | unknownKind

/-- `UDPServer._handle_received_data`, reduced to its dispatch. -/
def handle_received_data (wire : Option Json) : UdpAction :=
  match wire with
  | some (Json.obj fields) =>
    let mtype := (lookupField fields "type").getD Json.null
    let content := (lookupField fields "content").getD (Json.str "")
    let sender := (lookupField fields "sender").getD (Json.str "unknown")
    match mtype with
    | Json.str s =>
      if s = "connect" then .connect content
      else if s = "disconnect" then .disconnect
      else if s = "message" then .chat content sender
      else if s = "status" then .statusNote content
      else .unknownKind
    | _ => .unknownKind
  | _ => .ignored

/-- The effects of `UDPServer._handle_chat_message`: what reaches the
message callback and what is sent back.  Sends go through
`create_message(message_type, content, sender)` — a function the module
imports from `server.core.message_protocol` but which is not defined
there (the import itself fails; the only same-named function in the
repository is the standalone test mock) — so a sent message is modelled
by its argument triple. -/
structure UDPServerEffects where
  delivered : List Json
  sent : List (MessageType × String × String)

/-- `UDPServer._handle_chat_message(client_addr, content, sender)`: the
raw `content` goes to `_notify_message` unchanged (no envelope
unwrapping, no sequence tracking), and the reply is
`create_message(MessageType.STATUS, "Message delivered", "server")`. -/
def handle_chat_message (content : Json) : UDPServerEffects :=
  { delivered := [content]
    sent := [(.STATUS, "Message delivered", "server")] }

/-! ## Concrete example values used in closed statements -/

/-- The reliable envelope `{"sequence": 0, "data": "hello"}`. -/
def envelopeEx : Json :=
  Json.obj [("sequence", Json.num 0), ("data", Json.str "hello")]

/-- A reliable chat datagram from alice carrying `envelopeEx`, sequence 0. -/
def chatWireEx : Json :=
  Json.obj [("type", Json.str "message"), ("content", envelopeEx),
    ("username", Json.str "alice"), ("timestamp", Json.num 1000),
    ("version", Json.str "1.0")]

/-- A `Test` message with `timestamp = 1000` and `version = "1.0"`. -/
def testWireEx : Json :=
  Json.obj [("type", Json.str "test"), ("content", Json.str ""),
    ("username", Json.str "alice"), ("timestamp", Json.num 1000),
    ("version", Json.str "1.0")]

/-- A payload whose `type` is the unknown string `"bogus"`. -/
def bogusWireEx : Json :=
  Json.obj [("type", Json.str "bogus"), ("content", Json.str "x"),
    ("username", Json.str "u"), ("timestamp", Json.num 1),
    ("version", Json.str "1.0")]

/-- An `Ack{sequence: 0}` datagram as the server would address it. -/
def ackWireEx : Json :=
  Json.obj [("type", Json.str "ack"),
    ("content", Json.obj [("sequence", Json.num 0)]),
    ("timestamp", Json.num 999), ("username", Json.str "server"),
    ("version", Json.str "1.0")]

/-- A pending entry recorded at time 1 (older than the 2s timeout at
time 10). -/
def entryEarly : PendingEntry :=
  { message := Json.str "payload-a", sent_time := 1, retries := 3,
    content := Json.str "a" }

/-- A pending entry recorded at time 9 (within the 2s timeout at
time 10). -/
def entryLate : PendingEntry :=
  { message := Json.str "payload-b", sent_time := 9, retries := 0,
    content := Json.str "b" }

/-- Fallback value for positional access into the pending dict (only used
at indices that are in range, so its value never matters). -/
def dummyPending : Int × PendingEntry :=
  (0, { message := Json.null, sent_time := 0, retries := 0,
        content := Json.null })

/-- A client state with two outstanding reliable sends, sequences 0, 1. -/
def clientStEx : UDPClientState :=
  { pending_acknowledgements := [(0, entryEarly), (1, entryLate)]
    should_retransmit := true
    sequence_number := 2
    recovery_mode := false }

/-! ## Framer lemmas -/

theorem readLen_lenBytes_append (n : Nat) (h : n < 4294967296)
    (rest : List Nat) : readLen (lenBytes n ++ rest) = n := by
  simp only [readLen, lenBytes, List.cons_append, List.nil_append,
    List.getD_cons_zero, List.getD_cons_succ]
  omega

theorem processBuffer_nil : processBuffer [] = ([], []) := by
  unfold processBuffer
  simp

theorem processBuffer_short (b : List Nat) (h : b.length < 4) :
    processBuffer b = ([], b) := by
  unfold processBuffer
  simp [h]

theorem processBuffer_waiting (b : List Nat) (h4 : 4 ≤ b.length)
    (hn : readLen b ≤ 1048576) (hw : b.length < 4 + readLen b) :
    processBuffer b = ([], b) := by
  unfold processBuffer
  rw [if_neg (by omega), if_neg (by omega), if_neg (by omega)]

theorem processBuffer_oversized (b : List Nat) (h4 : 4 ≤ b.length)
    (hn : 1048576 < readLen b) : processBuffer b = ([], []) := by
  unfold processBuffer
  rw [if_neg (by omega), if_pos hn]

theorem encodeFrame_length (body : List Nat) :
    (encodeFrame body).length = 4 + body.length := by
  simp [encodeFrame, lenBytes]
  omega

theorem processBuffer_frame (body : List Nat)
    (h : body.length ≤ 1048576) :
    processBuffer (encodeFrame body) = ([body], []) := by
  have hlen : (encodeFrame body).length = 4 + body.length :=
    encodeFrame_length body
  have hrl : readLen (encodeFrame body) = body.length :=
    readLen_lenBytes_append body.length (by omega) body
  unfold processBuffer
  rw [if_neg (by omega), if_neg (by omega), if_pos (by omega)]
  have hdrop : (encodeFrame body).drop 4 = body := by
    simp [encodeFrame, lenBytes]
  have hdropAll : (encodeFrame body).drop (4 + body.length) = [] := by
    apply List.drop_eq_nil_of_le
    omega
  rw [hrl, hdrop, List.take_length, hdropAll, processBuffer_nil]

theorem singletons_append (a b : List Nat) :
    singletons (a ++ b) = singletons a ++ singletons b := by
  simp [singletons]

theorem feedChunks_snoc (cs : List (List Nat)) (c : List Nat) :
    feedChunks (cs ++ [c]) = feedChunk (feedChunks cs) c := by
  simp [feedChunks, List.foldl_append]

theorem processBuffer_take (body : List Nat) (h : body.length ≤ 1048576)
    (k : Nat) (hk : k < 4 + body.length) :
    processBuffer ((encodeFrame body).take k) =
      ([], (encodeFrame body).take k) := by
  have hlen := encodeFrame_length body
  have hklen : ((encodeFrame body).take k).length = k := by
    simp [List.length_take]
    omega
  by_cases h4 : k < 4
  · exact processBuffer_short _ (by omega)
  · have hlb : (lenBytes body.length).length = 4 := by simp [lenBytes]
    have hsplit : (encodeFrame body).take k =
        lenBytes body.length ++ body.take (k - 4) := by
      rw [encodeFrame, List.take_append_eq_append_take, hlb]
      congr 1
      exact List.take_of_length_le (by omega)
    have hrl : readLen ((encodeFrame body).take k) = body.length := by
      rw [hsplit]
      exact readLen_lenBytes_append body.length (by omega) _
    apply processBuffer_waiting
    · omega
    · rw [hrl]
      exact h
    · rw [hrl]
      omega

theorem feedChunks_take (body : List Nat) (h : body.length ≤ 1048576) :
    ∀ k, k ≤ (encodeFrame body).length →
      feedChunks (singletons ((encodeFrame body).take k)) =
        if k = (encodeFrame body).length then ([body], [])
        else ([], (encodeFrame body).take k) := by
  have hlen := encodeFrame_length body
  intro k
  induction k with
  | zero =>
    intro _
    rw [if_neg (by omega)]
    rfl
  | succ k ih =>
    intro hk1
    have hk : k < (encodeFrame body).length := by omega
    have ih' := ih (by omega)
    rw [if_neg (by omega)] at ih'
    have hx : (encodeFrame body)[k]? =
        some ((encodeFrame body).get ⟨k, hk⟩) := by
      rw [List.getElem?_eq_getElem hk]
      rfl
    have hts : (encodeFrame body).take (k + 1) =
        (encodeFrame body).take k ++ [(encodeFrame body).get ⟨k, hk⟩] := by
      rw [List.take_succ, hx]
      rfl
    rw [hts, singletons_append]
    have hsing : singletons [(encodeFrame body).get ⟨k, hk⟩] =
        [[(encodeFrame body).get ⟨k, hk⟩]] := rfl
    rw [hsing, feedChunks_snoc, ih']
    show (([] : List (List Nat)) ++
        (processBuffer ((encodeFrame body).take k ++
          [(encodeFrame body).get ⟨k, hk⟩])).1,
        (processBuffer ((encodeFrame body).take k ++
          [(encodeFrame body).get ⟨k, hk⟩])).2) = _
    rw [← hts]
    by_cases hend : k + 1 = (encodeFrame body).length
    · rw [if_pos hend, hend, List.take_length,
        processBuffer_frame body h]
      rfl
    · rw [if_neg hend, processBuffer_take body h (k + 1) (by omega)]
      rfl

theorem frame_byteSplit (body : List Nat) (h : body.length ≤ 1048576) :
    feedChunks (singletons (encodeFrame body)) = ([body], []) := by
  have hmain := feedChunks_take body h (encodeFrame body).length le_rfl
  rw [if_pos rfl, List.take_length] at hmain
  exact hmain

theorem frame_wholeChunk (body : List Nat) (h : body.length ≤ 1048576) :
    feedChunks [encodeFrame body] = ([body], []) := by
  simp [feedChunks, feedChunk, processBuffer_frame body h]

theorem oversized_then_frame (L : Nat) (junk body : List Nat)
    (hL1 : 1048576 < L) (hL2 : L < 4294967296)
    (hb : body.length ≤ 1048576) :
    feedChunks [lenBytes L ++ junk, encodeFrame body] = ([body], []) := by
  have h1 : processBuffer (lenBytes L ++ junk) = ([], []) := by
    apply processBuffer_oversized
    · simp [lenBytes]
    · rw [readLen_lenBytes_append L hL2 junk]
      exact hL1
  simp [feedChunks, feedChunk, h1, processBuffer_frame body hb]

/-! ## Claim theorems -/

/-- C1: the claim says the server answers a reliable `Chat` datagram with
`Ack{sequence}` and delivers the inner `data` exactly once per sequence
number.  Evaluating the code at the failing input shows otherwise: the
datagram routes to `_handle_chat_message`, which hands the *raw envelope*
(not `"hello"`) to the message callback and replies with
`create_message(STATUS, "Message delivered", "server")` — a `STATUS`
reply, not an `ACK`; no sequence is tracked anywhere in the server state
(and the `create_message` it calls does not even exist in
`server/core/message_protocol.py`). -/
theorem C1_server_chat_replies_status_not_ack :
    handle_received_data (some chatWireEx) =
      UdpAction.chat envelopeEx (Json.str "unknown") ∧
    handle_chat_message envelopeEx =
      { delivered := [envelopeEx]
        sent := [(MessageType.STATUS, "Message delivered", "server")] } ∧
    MessageType.STATUS ≠ MessageType.ACK ∧
    envelopeEx ≠ Json.str "hello" := by
  refine ⟨rfl, rfl, by decide, ?_⟩
  intro h
  exact Json.noConfusion h

/-- C2: the claim says decoding a payload whose `type` is outside the
enumeration returns a decode error and never silently defaults to
`Status`.  The server's `decode_message` maps `"bogus"` through
`message_type_map.get(message_type_str, MessageType.STATUS)`: the result
is a `STATUS`-kind message, not the `(None, "", "")` decode-failure
result. -/
theorem C2_unknown_kind_defaults_to_status :
    (decode_message (some bogusWireEx)).1 = some MessageType.STATUS ∧
    (decode_message (some bogusWireEx)).1 ≠ none := by
  refine ⟨rfl, ?_⟩
  intro h
  exact Option.noConfusion h

/-- C4: the claim says a `Test` message is echoed with the *received*
`timestamp`.  The server's `_process_message` answers a `TEST` frame with
`_send_test_message("")`, i.e. `encode_message(TEST, "", "server")`,
which stamps the server's own clock: for a `Test` received with
`timestamp = 1000` while the server clock reads 2000, the echoed message
carries `timestamp = 2000` (and empty content). -/
theorem C4_test_echo_stamps_responder_clock :
    (process_message (Json.str "User_1") (some testWireEx) 2000).sent =
      [encode_message .TEST (Json.str "") "server" 2000] ∧
    (encode_message .TEST (Json.str "") "server" 2000).lookup "timestamp" =
      some (Json.num 2000) ∧
    Json.num 2000 ≠ Json.num 1000 := by
  refine ⟨rfl, rfl, ?_⟩
  intro h
  injection h with h2
  omega

/-- C6 counterexample: the empty JSON object `{}` is missing `kind`,
`content` and `timestamp`, yet neither decoder rejects it: the server
produces a defaulted `(STATUS, "", "")` triple and the client a defaulted
`MESSAGE` with empty content and a receiver-assigned timestamp. -/
theorem C6_counterexample :
    decode_message (some (Json.obj [])) =
      (some MessageType.STATUS, Json.str "", Json.str "") ∧
    ChatMessage.from_json (some (Json.obj [])) 77 =
      Except.ok
        { type := MessageType.MESSAGE, content := Json.str "",
          timestamp := Json.num 77, username := Json.null,
          version := Json.str "1.0" } :=
  ⟨rfl, rfl⟩

/-- C6 amended: a payload missing any of the required fields `kind`,
`content`, `timestamp` is not rejected as malformed — the missing fields
are silently defaulted.  Server: a missing `type` falls through
`data.get('type', '')` to the key `''`, absent from the kind map, so the
payload decodes to a `STATUS`-kind message with missing
`content`/`username` defaulted to `""` (the timestamp is never read at
all).  Client: `from_json` on the empty object defaults the kind to
`"message"`, the content to `""`, the timestamp to the receiver's clock
and the version to `"1.0"`.  (The server's `(None, "", "")` failure
result arises only for invalid JSON, a non-object payload, or a present
`type` value that is an unhashable non-string — never for a merely
missing field.) -/
theorem C6_missing_fields_are_defaulted :
    (∀ fields : List (String × Json),
      lookupField fields "type" = none →
      decode_message (some (Json.obj fields)) =
        (some MessageType.STATUS,
          (lookupField fields "content").getD (Json.str ""),
          (lookupField fields "username").getD (Json.str ""))) ∧
    (∀ now : Int,
      ChatMessage.from_json (some (Json.obj [])) now =
        Except.ok
          { type := MessageType.MESSAGE, content := Json.str "",
            timestamp := Json.num now, username := Json.null,
            version := Json.str "1.0" }) := by
  constructor
  · intro fields htype
    simp [decode_message, htype, messageTypeOfString]
  · intro now
    rfl

/-- C6 witness: the amended theorem applied to `{"username": "u"}`
(missing `type`, `content` and `timestamp`) and to the empty object at
receiver clock 5. -/
theorem C6_witness :
    lookupField [("username", Json.str "u")] "type" = none ∧
    decode_message (some (Json.obj [("username", Json.str "u")])) =
      (some MessageType.STATUS, Json.str "", Json.str "u") ∧
    ChatMessage.from_json (some (Json.obj [])) 5 =
      Except.ok
        { type := MessageType.MESSAGE, content := Json.str "",
          timestamp := Json.num 5, username := Json.null,
          version := Json.str "1.0" } := by
  refine ⟨rfl, ?_, C6_missing_fields_are_defaulted.2 5⟩
  exact C6_missing_fields_are_defaulted.1 [("username", Json.str "u")] rfl

/-- C8 counterexample: the server's `encode_message` takes only
`(message_type, content, username)` and samples `time.time()` for the
timestamp field, so two invocations with identical arguments taken at
clock readings 1000 and 2000 produce different output: encoding is not
deterministic in its arguments alone. -/
theorem C8_counterexample :
    encode_message .MESSAGE (Json.str "hi") "alice" 1000 ≠
      encode_message .MESSAGE (Json.str "hi") "alice" 2000 := by
  intro h
  simp [encode_message] at h

/-- C8 amended: `encode_message` is pure and deterministic in its
arguments *plus the sampled clock*: identical kind, content, sender and
clock reading give identical output, and the sampled clock is exactly
what becomes the `timestamp` field (the timestamp is not a parameter of
the code's encoder, and `version` is the constant `"1.0"`). -/
theorem C8_encode_deterministic_given_clock (k1 k2 : MessageType)
    (c1 c2 : Json) (u1 u2 : String) (n1 n2 : Int)
    (hk : k1 = k2) (hc : c1 = c2) (hu : u1 = u2) (hn : n1 = n2) :
    encode_message k1 c1 u1 n1 = encode_message k2 c2 u2 n2 ∧
    (encode_message k1 c1 u1 n1).lookup "timestamp" = some (Json.num n1) ∧
    (encode_message k1 c1 u1 n1).lookup "version" =
      some (Json.str "1.0") := by
  subst hk hc hu hn
  exact ⟨rfl, rfl, rfl⟩

/-- C8 witness: the determinism theorem applied at a concrete input. -/
theorem C8_witness :
    encode_message .MESSAGE (Json.str "hi") "alice" 5 =
      encode_message .MESSAGE (Json.str "hi") "alice" 5 ∧
    (encode_message .MESSAGE (Json.str "hi") "alice" 5).lookup "timestamp" =
      some (Json.num 5) ∧
    (encode_message .MESSAGE (Json.str "hi") "alice" 5).lookup "version" =
      some (Json.str "1.0") :=
  C8_encode_deterministic_given_clock .MESSAGE .MESSAGE (Json.str "hi")
    (Json.str "hi") "alice" "alice" 5 5 rfl rfl rfl rfl

/-- C10 counterexample: `from_json` is not total — a valid-JSON input
that is not an object (here the array `[1]`) reaches
`data.get("type", "message")`, which raises `AttributeError`; the
handler catches only `JSONDecodeError`, `ValueError` and `KeyError`, so
the exception propagates to the caller. -/
theorem C10_counterexample :
    ChatMessage.from_json (some (Json.arr [Json.num 1])) 0 =
      Except.error "AttributeError" := rfl

/-- C10 amended: for the inputs the claim enumerates the code does behave
as claimed — a string that is not valid JSON, and a JSON *object* whose
`type` value is an unknown string, both yield
`ERROR / "Invalid message format"` with a receiver-assigned timestamp —
but `from_json` is not total: a valid-JSON non-object input raises an
uncaught `AttributeError` (see the counterexample). -/
theorem C10_invalid_json_and_unknown_kind_yield_error_message
    (now : Int) (fields : List (String × Json)) (s : String)
    (htype : lookupField fields "type" = some (Json.str s))
    (hunknown : messageTypeOfString s = none) :
    ChatMessage.from_json none now =
      Except.ok (ChatMessage.invalidFormat now) ∧
    ChatMessage.from_json (some (Json.obj fields)) now =
      Except.ok (ChatMessage.invalidFormat now) ∧
    (ChatMessage.invalidFormat now).type = MessageType.ERROR ∧
    (ChatMessage.invalidFormat now).content =
      Json.str "Invalid message format" ∧
    (ChatMessage.invalidFormat now).timestamp = Json.num now := by
  refine ⟨rfl, ?_, rfl, rfl, rfl⟩
  simp [ChatMessage.from_json, htype, hunknown]

/-- C10 witness: the amended theorem applied at `type = "bogus"`. -/
theorem C10_witness :
    ChatMessage.from_json none 7 = Except.ok (ChatMessage.invalidFormat 7) ∧
    ChatMessage.from_json
        (some (Json.obj [("type", Json.str "bogus")])) 7 =
      Except.ok (ChatMessage.invalidFormat 7) ∧
    (ChatMessage.invalidFormat 7).type = MessageType.ERROR ∧
    (ChatMessage.invalidFormat 7).content =
      Json.str "Invalid message format" ∧
    (ChatMessage.invalidFormat 7).timestamp = Json.num 7 :=
  C10_invalid_json_and_unknown_kind_yield_error_message 7
    [("type", Json.str "bogus")] "bogus" rfl rfl

/-- C5: on receiving an `Ack{sequence}`, the client removes the matching
pending send (leaving every other pending send untouched, in order, and
doing nothing when no entry matches — the filter form states all three at
once), and the ack is never handed to the application layer:
`receive_message` returns `None` for it. -/
theorem C5_ack_removes_pending_never_delivered
    (st : UDPClientState) (wire : Option Json) (now : Int)
    (m : ChatMessage)
    (hdec : ChatMessage.from_json wire now = Except.ok m)
    (hack : m.type = MessageType.ACK) :
    (udp_receive_message st wire now).2 = none ∧
    (udp_receive_message st wire now).1 = handle_ack_message st m.content ∧
    ∀ (fields : List (String × Json)) (n : Int),
      m.content = Json.obj fields →
      lookupField fields "sequence" = some (Json.num n) →
      (handle_ack_message st m.content).pending_acknowledgements =
        st.pending_acknowledgements.filter (fun p => !(p.1 == n)) := by
  refine ⟨?_, ?_, ?_⟩
  · simp [udp_receive_message, hdec, hack]
  · simp [udp_receive_message, hdec, hack]
  · intro fields n hc hseq
    rw [hc]
    by_cases hmem :
        st.pending_acknowledgements.any (fun p => p.1 == n) = true
    · simp [handle_ack_message, hseq, hmem]
    · simp [handle_ack_message, hseq, hmem]
      have hall : ∀ p ∈ st.pending_acknowledgements,
          (!(p.1 == n)) = true := by
        intro p hp
        cases hb : (p.1 == n)
        · rw [Bool.not_false]
        · exact absurd (List.any_eq_true.mpr ⟨p, hp, hb⟩) hmem
      rw [List.filter_eq_self.mpr hall]

/-- C5 witness: the theorem applied to a concrete state holding pending
sequences 0 and 1 and the ack datagram for sequence 0. -/
theorem C5_witness :
    (udp_receive_message clientStEx (some ackWireEx) 50).2 = none ∧
    (handle_ack_message clientStEx
        (Json.obj [("sequence", Json.num 0)])).pending_acknowledgements =
      clientStEx.pending_acknowledgements.filter (fun p => !(p.1 == 0)) := by
  have hmain := C5_ack_removes_pending_never_delivered clientStEx
    (some ackWireEx) 50
    { type := .ACK, content := Json.obj [("sequence", Json.num 0)],
      timestamp := Json.num 999, username := Json.str "server",
      version := Json.str "1.0" } rfl rfl
  exact ⟨hmain.1, hmain.2.2 [("sequence", Json.num 0)] 0 rfl rfl⟩

theorem retransmitSweep_length (now : Int)
    (pending : List (Int × PendingEntry)) (recovery : Bool) :
    (retransmitSweep now pending recovery).pending.length =
      pending.length := by
  simp [retransmitSweep]

theorem retransmitSweep_getD (now : Int)
    (pending : List (Int × PendingEntry)) (recovery : Bool) (i : Nat)
    (hi : i < pending.length) :
    (retransmitSweep now pending recovery).pending.getD i dummyPending =
      (if 2 < now - (pending.getD i dummyPending).2.sent_time then
        ((pending.getD i dummyPending).1,
          { (pending.getD i dummyPending).2 with
              retries := (pending.getD i dummyPending).2.retries + 1
              sent_time := now })
      else pending.getD i dummyPending) := by
  have hi2 : i < (retransmitSweep now pending recovery).pending.length := by
    rw [retransmitSweep_length]
    exact hi
  rw [List.getD_eq_getElem _ _ hi2, List.getD_eq_getElem _ _ hi]
  simp [retransmitSweep, List.getElem_map]

/-- C7: in one sweep of `_retransmit_loop` at clock `now`, every pending
send whose elapsed time exceeds the 2-second timeout has its recorded
payload bytes re-sent unchanged, its retry count incremented by exactly
one and its send time refreshed to `now`; every other pending send is
left completely unchanged; the sweep removes nothing (same length, same
sequence number at every position), and the re-sent payloads are exactly
the recorded payloads of the timed-out entries. -/
theorem C7_retry_sweep_effects (now : Int)
    (pending : List (Int × PendingEntry)) (recovery : Bool) (i : Nat)
    (hi : i < pending.length) :
    (retransmitSweep now pending recovery).pending.length =
      pending.length ∧
    (retransmitSweep now pending recovery).resent =
      (pending.filter fun p => 2 < now - p.2.sent_time).map
        (fun p => p.2.message) ∧
    ((retransmitSweep now pending recovery).pending.getD i
        dummyPending).1 = (pending.getD i dummyPending).1 ∧
    ((retransmitSweep now pending recovery).pending.getD i
        dummyPending).2.message =
      (pending.getD i dummyPending).2.message ∧
    (2 < now - (pending.getD i dummyPending).2.sent_time →
      ((retransmitSweep now pending recovery).pending.getD i
          dummyPending).2.retries =
        (pending.getD i dummyPending).2.retries + 1 ∧
      ((retransmitSweep now pending recovery).pending.getD i
          dummyPending).2.sent_time = now ∧
      (pending.getD i dummyPending).2.message ∈
        (retransmitSweep now pending recovery).resent) ∧
    (¬ 2 < now - (pending.getD i dummyPending).2.sent_time →
      (retransmitSweep now pending recovery).pending.getD i dummyPending =
        pending.getD i dummyPending) := by
  have hg := retransmitSweep_getD now pending recovery i hi
  refine ⟨retransmitSweep_length now pending recovery, rfl, ?_, ?_, ?_, ?_⟩
  · rw [hg]
    by_cases hcond : 2 < now - (pending.getD i dummyPending).2.sent_time
    · rw [if_pos hcond]
    · rw [if_neg hcond]
  · rw [hg]
    by_cases hcond : 2 < now - (pending.getD i dummyPending).2.sent_time
    · rw [if_pos hcond]
    · rw [if_neg hcond]
  · intro hcond
    rw [hg, if_pos hcond]
    refine ⟨rfl, rfl, ?_⟩
    show _ ∈ (pending.filter fun p => 2 < now - p.2.sent_time).map
      (fun p => p.2.message)
    apply List.mem_map.mpr
    refine ⟨pending.getD i dummyPending, ?_, rfl⟩
    apply List.mem_filter.mpr
    constructor
    · rw [List.getD_eq_getElem _ _ hi]
      exact List.getElem_mem hi
    · simpa using hcond
  · intro hcond
    rw [hg, if_neg hcond]

/-- C7 witness: the sweep theorem applied at clock 10 to the concrete
pending dict holding sequence 0 (sent at time 1, timed out) and
sequence 1 (sent at time 9, fresh), at position 0. -/
theorem C7_witness :
    (2:Int) < 10 -
      (clientStEx.pending_acknowledgements.getD 0
        dummyPending).2.sent_time ∧
    ((retransmitSweep 10 clientStEx.pending_acknowledgements
        false).pending.length = clientStEx.pending_acknowledgements.length ∧
     ((retransmitSweep 10 clientStEx.pending_acknowledgements
        false).pending.getD 0 dummyPending).1 =
      (clientStEx.pending_acknowledgements.getD 0 dummyPending).1) ∧
    ((retransmitSweep 10 clientStEx.pending_acknowledgements
        false).pending.getD 0 dummyPending).2.retries =
      (clientStEx.pending_acknowledgements.getD 0
        dummyPending).2.retries + 1 ∧
    ((retransmitSweep 10 clientStEx.pending_acknowledgements
        false).pending.getD 0 dummyPending).2.sent_time = 10 ∧
    (clientStEx.pending_acknowledgements.getD 0 dummyPending).2.message ∈
      (retransmitSweep 10 clientStEx.pending_acknowledgements
        false).resent := by
  have hcond : (2:Int) < 10 -
      (clientStEx.pending_acknowledgements.getD 0
        dummyPending).2.sent_time := by decide
  have hmain := C7_retry_sweep_effects 10
    clientStEx.pending_acknowledgements false 0 (by decide)
  exact ⟨hcond, ⟨hmain.1, hmain.2.2.1⟩, hmain.2.2.2.2.1 hcond⟩

/-- C3 counterexample: a frame whose header claims 1048577 bytes (> 1 MiB)
does *not* terminate the connection: the handler clears its buffer and
keeps reading from the same connection — a valid frame received right
afterwards is still extracted and delivered (were the session torn down,
nothing further would be read). -/
theorem C3_counterexample :
    feedChunks [lenBytes 1048577, encodeFrame [49]] = ([[49]], []) := by
  have h := oversized_then_frame 1048577 [] [49] (by norm_num)
    (by norm_num) (by simp)
  simpa using h

/-- C3 amended: a length header claiming more than 1 MiB makes the
handler discard its entire receive buffer (the oversized frame and any
coalesced bytes after it) and continue the read loop on the same
connection; the connection is not terminated, and a subsequent valid
frame is still processed. -/
theorem C3_oversized_clears_buffer_connection_continues
    (L : Nat) (junk body : List Nat) (hL1 : 1048576 < L)
    (hL2 : L < 4294967296) (hb : body.length ≤ 1048576) :
    processBuffer (lenBytes L ++ junk) = ([], []) ∧
    feedChunks [lenBytes L ++ junk, encodeFrame body] = ([body], []) := by
  constructor
  · apply processBuffer_oversized
    · simp [lenBytes]
    · rw [readLen_lenBytes_append L hL2 junk]
      exact hL1
  · exact oversized_then_frame L junk body hL1 hL2 hb

/-- C3 witness: the amended theorem at the concrete oversized length
1048577 with one byte of coalesced junk and a following 1-byte frame. -/
theorem C3_witness :
    1048576 < 1048577 ∧ 1048577 < 4294967296 ∧
    ([49] : List Nat).length ≤ 1048576 ∧
    processBuffer (lenBytes 1048577 ++ [7]) = ([], []) ∧
    feedChunks [lenBytes 1048577 ++ [7], encodeFrame [49]] =
      ([[49]], []) := by
  have h := C3_oversized_clears_buffer_connection_continues 1048577 [7]
    [49] (by norm_num) (by norm_num) (by simp)
  exact ⟨by norm_num, by norm_num, by simp, h.1, h.2⟩

/-- C9: feeding the framer a valid encoded frame (body at most 1 MiB)
split into 1-byte chunks yields exactly one message body, equal to the
frame's body and with an empty leftover buffer — identical to the result
of feeding the whole frame as a single chunk.  The decoded message is
therefore identical too, decoding being a function of the extracted
body. -/
theorem C9_byte_split_equals_whole_chunk (body : List Nat)
    (h : body.length ≤ 1048576) :
    feedChunks (singletons (encodeFrame body)) = ([body], []) ∧
    feedChunks [encodeFrame body] = ([body], []) ∧
    feedChunks (singletons (encodeFrame body)) =
      feedChunks [encodeFrame body] := by
  have h1 := frame_byteSplit body h
  have h2 := frame_wholeChunk body h
  exact ⟨h1, h2, h1.trans h2.symm⟩

/-- C9 witness: the equivalence theorem at the concrete 2-byte body
`[104, 105]`. -/
theorem C9_witness :
    ([104, 105] : List Nat).length ≤ 1048576 ∧
    feedChunks (singletons (encodeFrame [104, 105])) =
      ([[104, 105]], []) ∧
    feedChunks [encodeFrame [104, 105]] = ([[104, 105]], []) := by
  have h := C9_byte_split_equals_whole_chunk [104, 105] (by simp)
  exact ⟨by simp, h.1, h.2.1⟩
